import Mathlib

/-!
# wincompat.c : `wintimeofday`

A shallow embedding of `scripts/patches/wincompat.c`, the Windows replacement for
`gettimeofday`, and theorems about it.

* Unsigned machine integers are `Nat` with explicit reduction modulo `2 ^ 64`.
* Signed machine integers are `Int`; a conversion to a signed type of `w` bits is
  `toSigned w`, the two's-complement wrap.
* The widths of `int` and `long` come from the compiler, not from this file, so
  they are a parameter (`CTypes`); `win32` is the data model of every `_WIN32` target.
* The two platform queries are stubs in a `Platform` record. A stub that is
  `none` is poisoned: calling it aborts the run.
* Every platform call and every store through an argument pointer is
  appended to a trace, so that "is not invoked" and "is not written" can be stated.
-/

namespace Wincompat

/-! ## Data model -/

/-- The widths, in bits, of the C types `int` and `long` on the target. -/
structure CTypes where
  intBits : Nat
  longBits : Nat
deriving DecidableEq, Repr

/-- The data model of the `_WIN32` targets (ILP32 and LLP64): `int` and `long` have 32 bits. -/
def win32 : CTypes := { intBits := 32, longBits := 32 }

/-- An LP64 data model, where `long` has 64 bits. -/
def lp64 : CTypes := { intBits := 32, longBits := 64 }

/-- Conversion of an integer to a signed type of `w` bits (two's-complement wrap). -/
def toSigned (w : Nat) (x : Int) : Int :=
  let r := x % (2 : Int) ^ w
  if r < (2 : Int) ^ (w - 1) then r else r - (2 : Int) ^ w

/-- The cast `(long)x` of an unsigned value. -/
def castLong (c : CTypes) (x : Nat) : Int := toSigned c.longBits (x : Int)

/-- The conversion to `int` done by an assignment to an `int` field. -/
def castInt (c : CTypes) (x : Int) : Int := toSigned c.intBits x

/-- The `struct timeval` of the Windows headers: two `long` fields. -/
structure timeval where
  tv_sec : Int
  tv_usec : Int
deriving DecidableEq, Repr

/-- The `struct timezone` declared in the file: two `int` fields. -/
structure timezone where
  tz_minuteswest : Int
  tz_dsttime : Int
deriving DecidableEq, Repr

/-- The platform `FILETIME`: the two `DWORD` halves of a 64-bit tick count. -/
structure FILETIME where
  dwLowDateTime : Nat
  dwHighDateTime : Nat
deriving DecidableEq, Repr

/-- The integer fields of the platform `TIME_ZONE_INFORMATION` (all `LONG`). -/
structure TIME_ZONE_INFORMATION where
  Bias : Int
  StandardBias : Int
  DaylightBias : Int
deriving DecidableEq, Repr

/-- What `GetTimeZoneInformation` answers: its `DWORD` return value (the
daylight-saving state: 0 unknown, 1 standard, 2 daylight) and the record it fills. -/
structure TzAnswer where
  state : Nat
  tzinfo : TIME_ZONE_INFORMATION
deriving DecidableEq, Repr

/-- The two platform queries. A stub that is `none` is poisoned. -/
structure Platform where
  GetSystemTimeAsFileTime : Option FILETIME
  GetTimeZoneInformation : Option TzAnswer
deriving DecidableEq, Repr

/-- A pointer argument: `NULL`, or the address of the caller's object. -/
inductive Ptr where
  | NULL
  | obj
deriving DecidableEq, Repr

/-- Observable steps of a run, in program order. -/
inductive Event where
  | callGetSystemTimeAsFileTime
  | callGetTimeZoneInformation
  | storeTvSec (v : Int)
  | storeTvUsec (v : Int)
  | storeTzMinuteswest (v : Int)
  | storeTzDsttime (v : Int)
deriving DecidableEq, Repr

/-- The caller's two objects and the trace of the run so far. -/
structure Machine where
  tvObj : timeval
  tzObj : timezone
  trace : List Event
deriving DecidableEq, Repr

/-! ## The code -/

/-- Line 32: `static const uint64_t EPOCH_DIFF = 116444736000000000ULL;` -/
def EPOCH_DIFF : Nat := 116444736000000000

/-- Lines 29, 37, 38: `tmp = 0; tmp |= ((uint64_t)ft.dwHighDateTime << 32);
tmp |= ft.dwLowDateTime;` in `uint64_t` arithmetic. -/
def assemble (ft : FILETIME) : Nat :=
  let tmp := 0
  let tmp := tmp ||| (((ft.dwHighDateTime % 2 ^ 64) <<< 32) % 2 ^ 64)
  let tmp := tmp ||| (ft.dwLowDateTime % 2 ^ 64)
  tmp

/-- Line 41: `tmp -= EPOCH_DIFF;` in `uint64_t` arithmetic (wraps modulo `2 ^ 64`). -/
def rebase (tmp : Nat) : Nat := (tmp + 2 ^ 64 - EPOCH_DIFF) % 2 ^ 64

/-- Line 44, the operand of the cast: `tmp / 10000000ULL`. -/
def secQuot (tmp : Nat) : Nat := tmp / 10000000

/-- Line 45, the operand of the cast: `(tmp % 10000000ULL) / 10`. -/
def usecQuot (tmp : Nat) : Nat := (tmp % 10000000) / 10

/-- The call `GetSystemTimeAsFileTime(&ft)`: logged, aborts on a poisoned stub. -/
def callClock (p : Platform) (m : Machine) : Option (FILETIME × Machine) :=
  match p.GetSystemTimeAsFileTime with
  | none => none
  | some ft => some (ft, { m with trace := m.trace ++ [Event.callGetSystemTimeAsFileTime] })

/-- The call `GetTimeZoneInformation(&tzinfo)`: logged, aborts on a poisoned stub.
The return value is discarded, as in the source. -/
def callZone (p : Platform) (m : Machine) : Option (TIME_ZONE_INFORMATION × Machine) :=
  match p.GetTimeZoneInformation with
  | none => none
  | some a => some (a.tzinfo, { m with trace := m.trace ++ [Event.callGetTimeZoneInformation] })

/-- Lines 27-46: the block run when `tv != NULL`. -/
def tvBlock (c : CTypes) (p : Platform) (m : Machine) : Option Machine :=
  match callClock p m with
  | none => none
  | some (ft, m) =>
    let tmp := assemble ft
    let tmp := rebase tmp
    let sec := castLong c (secQuot tmp)
    let m := { m with tvObj := { m.tvObj with tv_sec := sec },
                      trace := m.trace ++ [Event.storeTvSec sec] }
    let usec := castLong c (usecQuot tmp)
    let m := { m with tvObj := { m.tvObj with tv_usec := usec },
                      trace := m.trace ++ [Event.storeTvUsec usec] }
    some m

/-- Lines 48-54: the block run when `tz != NULL`. -/
def tzBlock (c : CTypes) (p : Platform) (m : Machine) : Option Machine :=
  match callZone p m with
  | none => none
  | some (tzinfo, m) =>
    let west := castInt c tzinfo.Bias
    let m := { m with tzObj := { m.tzObj with tz_minuteswest := west },
                      trace := m.trace ++ [Event.storeTzMinuteswest west] }
    let dst := castInt c 0
    let m := { m with tzObj := { m.tzObj with tz_dsttime := dst },
                      trace := m.trace ++ [Event.storeTzDsttime dst] }
    some m

/-- Lines 25-57: `int wintimeofday(struct timeval* tv, struct timezone* tz)`.
The result is `none` when a poisoned stub was called, else the returned
`int` and the machine after the run. -/
def wintimeofday (c : CTypes) (p : Platform) (tv tz : Ptr) (m : Machine) :
    Option (Int × Machine) :=
  match (if tv ≠ Ptr.NULL then tvBlock c p m else some m) with
  | none => none
  | some m =>
    match (if tz ≠ Ptr.NULL then tzBlock c p m else some m) with
    | none => none
    | some m => some (0, m)

/-! ## Vocabulary of the statements -/

/-- The tick count carried by two 32-bit halves. -/
def ticksOf (high low : Nat) : Nat := high * 2 ^ 32 + low

/-- A clock stub that answers the halves `high`, `low`. -/
def clockOf (high low : Nat) : Option FILETIME :=
  some { dwLowDateTime := low, dwHighDateTime := high }

/-- A timezone stub that answers the bias `b`, with daylight state `st` and the
two other bias fields `sb`, `db`. -/
def zoneOf (b : Int) (st : Nat) (sb db : Int) : Option TzAnswer :=
  some { state := st, tzinfo := { Bias := b, StandardBias := sb, DaylightBias := db } }

/-- A machine with the given initial objects and an empty trace. -/
def start (tv0 : timeval) (tz0 : timezone) : Machine :=
  { tvObj := tv0, tzObj := tz0, trace := [] }

/-- The `timeval` the code computes from a `FILETIME` (lines 37-45). -/
def tvOf (c : CTypes) (ft : FILETIME) : timeval :=
  { tv_sec := castLong c (secQuot (rebase (assemble ft))),
    tv_usec := castLong c (usecQuot (rebase (assemble ft))) }

/-- The `timezone` the code computes from a `TIME_ZONE_INFORMATION` (lines 52-53). -/
def tzOf (c : CTypes) (tzinfo : TIME_ZONE_INFORMATION) : timezone :=
  { tz_minuteswest := castInt c tzinfo.Bias, tz_dsttime := castInt c 0 }

/-- Stores through `tv`. -/
def Event.isTvStore : Event → Bool
  | Event.storeTvSec _ => true
  | Event.storeTvUsec _ => true
  | _ => false

/-- Stores through `tz`. -/
def Event.isTzStore : Event → Bool
  | Event.storeTzMinuteswest _ => true
  | Event.storeTzDsttime _ => true
  | _ => false

/-- Platform queries. -/
def Event.isCall : Event → Bool
  | Event.callGetSystemTimeAsFileTime => true
  | Event.callGetTimeZoneInformation => true
  | _ => false

/-! ## The Gregorian calendar, for the comment on line 31

These definitions follow the calendar rule, not the source: they are the
independent side of the comparison with the constant `EPOCH_DIFF`. -/

/-- Gregorian leap years: divisible by 4 and not by 100, or divisible by 400. -/
def isLeapYear (y : Nat) : Bool := (y % 4 == 0 && y % 100 != 0) || y % 400 == 0

/-- Days of the Gregorian year `y`. -/
def daysInYear (y : Nat) : Nat := if isLeapYear y then 366 else 365

/-- Days from January 1 of year `y1` to January 1 of year `y2`. -/
def daysBetween (y1 y2 : Nat) : Nat :=
  ((List.range (y2 - y1)).map (fun i => daysInYear (y1 + i))).sum

/-- Leap years among `y1`, ..., `y2 - 1`. -/
def leapYearsBetween (y1 y2 : Nat) : Nat :=
  ((List.range (y2 - y1)).filter (fun i => isLeapYear (y1 + i))).length

/-! ## Arithmetic of the conversion -/

theorem assemble_eq (high low : Nat) (hh : high < 2 ^ 32) (hl : low < 2 ^ 32) :
    assemble { dwLowDateTime := low, dwHighDateTime := high } = ticksOf high low := by
  have h1 : high % 2 ^ 64 = high := Nat.mod_eq_of_lt (by omega)
  have h2 : low % 2 ^ 64 = low := Nat.mod_eq_of_lt (by omega)
  have h3 : (high <<< 32) % 2 ^ 64 = 2 ^ 32 * high := by
    rw [Nat.shiftLeft_eq, Nat.mul_comm]
    exact Nat.mod_eq_of_lt (by omega)
  simp only [assemble, ticksOf, h1, h2, h3, Nat.zero_or]
  rw [← Nat.mul_add_lt_is_or hl, Nat.mul_comm]

theorem ticksOf_lt (high low : Nat) (hh : high < 2 ^ 32) (hl : low < 2 ^ 32) :
    ticksOf high low < 2 ^ 64 := by
  unfold ticksOf; omega

theorem rebase_of_ge (t : Nat) (hlt : t < 2 ^ 64) (hge : EPOCH_DIFF ≤ t) :
    rebase t = t - EPOCH_DIFF := by
  unfold rebase EPOCH_DIFF at *
  omega

theorem rebase_assemble (high low : Nat) (hh : high < 2 ^ 32) (hl : low < 2 ^ 32)
    (hge : EPOCH_DIFF ≤ ticksOf high low) :
    rebase (assemble { dwLowDateTime := low, dwHighDateTime := high }) =
      ticksOf high low - EPOCH_DIFF := by
  rw [assemble_eq high low hh hl, rebase_of_ge _ (ticksOf_lt high low hh hl) hge]

theorem toSigned_of_lt (w : Nat) (x : Nat) (h : x < 2 ^ (w - 1)) :
    toSigned w (x : Int) = (x : Int) := by
  have hle : 2 ^ (w - 1) ≤ 2 ^ w := Nat.pow_le_pow_right (by decide) (Nat.sub_le w 1)
  have hx : ((x : Int)) % (2 : Int) ^ w = (x : Int) := by
    apply Int.emod_eq_of_lt (by omega)
    have : x < 2 ^ w := by omega
    exact_mod_cast this
  have hx2 : (x : Int) < (2 : Int) ^ (w - 1) := by exact_mod_cast h
  simp only [toSigned, hx, hx2, if_true]

theorem two_pow_31_le (w : Nat) (hw : 32 ≤ w) : 2 ^ 31 ≤ 2 ^ (w - 1) :=
  Nat.pow_le_pow_right (by decide) (by omega)

theorem usecQuot_lt (tmp : Nat) : usecQuot tmp < 1000000 := by
  unfold usecQuot; omega

theorem castLong_usecQuot (c : CTypes) (hw : 32 ≤ c.longBits) (tmp : Nat) :
    castLong c (usecQuot tmp) = (usecQuot tmp : Int) := by
  have h1 := usecQuot_lt tmp
  have h2 := two_pow_31_le c.longBits hw
  exact toSigned_of_lt _ _ (by omega)

/-! ## Runs of `wintimeofday` -/

theorem run_time (c : CTypes) (ft : FILETIME) (z : Option TzAnswer) (tz : Ptr)
    (tv0 : timeval) (tz0 : timezone) (hz : tz = Ptr.NULL ∨ z ≠ none) :
    ∃ m, wintimeofday c { GetSystemTimeAsFileTime := some ft, GetTimeZoneInformation := z }
          Ptr.obj tz (start tv0 tz0) = some (0, m) ∧ m.tvObj = tvOf c ft := by
  cases tz with
  | NULL => exact ⟨_, rfl, rfl⟩
  | obj =>
    cases z with
    | none => simp at hz
    | some a => exact ⟨_, rfl, rfl⟩

theorem run_zone (c : CTypes) (k : Option FILETIME) (a : TzAnswer) (tv : Ptr)
    (tv0 : timeval) (tz0 : timezone) (hk : tv = Ptr.NULL ∨ k ≠ none) :
    ∃ m, wintimeofday c { GetSystemTimeAsFileTime := k, GetTimeZoneInformation := some a }
          tv Ptr.obj (start tv0 tz0) = some (0, m) ∧ m.tzObj = tzOf c a.tzinfo := by
  cases tv with
  | NULL => exact ⟨_, rfl, rfl⟩
  | obj =>
    cases k with
    | none => simp at hk
    | some ft => exact ⟨_, rfl, rfl⟩

theorem poisoned_clock_aborts (c : CTypes) (z : Option TzAnswer) (tz : Ptr) (m : Machine) :
    wintimeofday c { GetSystemTimeAsFileTime := none, GetTimeZoneInformation := z }
      Ptr.obj tz m = none := rfl

theorem poisoned_zone_aborts (c : CTypes) (k : Option FILETIME) (tv : Ptr) (m : Machine) :
    wintimeofday c { GetSystemTimeAsFileTime := k, GetTimeZoneInformation := none }
      tv Ptr.obj m = none := by
  cases tv with
  | NULL => rfl
  | obj => cases k <;> rfl

theorem tvOf_exact (c : CTypes) (high low : Nat) (hh : high < 2 ^ 32) (hl : low < 2 ^ 32)
    (hge : EPOCH_DIFF ≤ ticksOf high low) (hw : 32 ≤ c.longBits)
    (hfit : (ticksOf high low - EPOCH_DIFF) / 10000000 < 2 ^ (c.longBits - 1)) :
    tvOf c { dwLowDateTime := low, dwHighDateTime := high } =
      { tv_sec := (((ticksOf high low - EPOCH_DIFF) / 10000000 : Nat) : Int),
        tv_usec := ((((ticksOf high low - EPOCH_DIFF) % 10000000) / 10 : Nat) : Int) } := by
  unfold tvOf
  rw [rebase_assemble high low hh hl hge, castLong_usecQuot c hw]
  have hs : castLong c (secQuot (ticksOf high low - EPOCH_DIFF)) =
      ((secQuot (ticksOf high low - EPOCH_DIFF) : Nat) : Int) :=
    toSigned_of_lt _ _ hfit
  rw [hs]
  rfl

theorem castLong_zero (c : CTypes) : castLong c 0 = 0 := by
  have h : (0 : Nat) < 2 ^ (c.longBits - 1) := Nat.pow_pos (by decide)
  exact toSigned_of_lt _ 0 h

set_option maxRecDepth 100000 in
theorem daysBetween_1601_1970 : daysBetween 1601 1970 = 134774 := by decide

set_option maxRecDepth 100000 in
theorem leapYearsBetween_1601_1970 : leapYearsBetween 1601 1970 = 89 := by decide

/-! ## C1: the time conversion -/

/-- C1, as stated, fails on the `_WIN32` data model: at the tick count of
2038-01-19T03:14:08Z (halves 32111902 and 3577643008, at least `EPOCH_DIFF`) the
seconds quotient is 2147483648 and the 32-bit `long` field `tv_sec` receives
-2147483648. -/
theorem time_conversion_wraps_in_2038 :
    (32111902 < 2 ^ 32 ∧ 3577643008 < 2 ^ 32 ∧ EPOCH_DIFF ≤ ticksOf 32111902 3577643008) ∧
    (ticksOf 32111902 3577643008 - EPOCH_DIFF) / 10000000 = 2147483648 ∧
    wintimeofday win32
        { GetSystemTimeAsFileTime := clockOf 32111902 3577643008,
          GetTimeZoneInformation := none }
        Ptr.obj Ptr.NULL (start ⟨0, 0⟩ ⟨0, 0⟩) =
      some (0, { tvObj := ⟨-2147483648, 0⟩, tzObj := ⟨0, 0⟩,
                 trace := [Event.callGetSystemTimeAsFileTime,
                           Event.storeTvSec (-2147483648), Event.storeTvUsec 0] }) ∧
    (-2147483648 : Int) ≠ (((ticksOf 32111902 3577643008 - EPOCH_DIFF) / 10000000 : Nat) : Int) := by
  decide

/-- C1, amended. For 32-bit halves whose tick count `t` is at least `EPOCH_DIFF`
and whose seconds quotient `(t - EPOCH_DIFF) / 10000000` is below
`2 ^ (longBits - 1)` (it fits `long`, a type of at least 32 bits), a call with
a non-null `tv` in which every invoked query answers returns 0 and stores
`tv_sec = (t - EPOCH_DIFF) / 10000000` and
`tv_usec = ((t - EPOCH_DIFF) % 10000000) / 10`, both truncating. -/
theorem time_conversion (c : CTypes) (high low : Nat) (z : Option TzAnswer) (tz : Ptr)
    (tv0 : timeval) (tz0 : timezone)
    (hh : high < 2 ^ 32) (hl : low < 2 ^ 32) (hge : EPOCH_DIFF ≤ ticksOf high low)
    (hw : 32 ≤ c.longBits)
    (hfit : (ticksOf high low - EPOCH_DIFF) / 10000000 < 2 ^ (c.longBits - 1))
    (hz : tz = Ptr.NULL ∨ z ≠ none) :
    ∃ m, wintimeofday c
          { GetSystemTimeAsFileTime := clockOf high low, GetTimeZoneInformation := z }
          Ptr.obj tz (start tv0 tz0) = some (0, m) ∧
      m.tvObj.tv_sec = (((ticksOf high low - EPOCH_DIFF) / 10000000 : Nat) : Int) ∧
      m.tvObj.tv_usec = ((((ticksOf high low - EPOCH_DIFF) % 10000000) / 10 : Nat) : Int) := by
  obtain ⟨m, hrun, htv⟩ := run_time c ⟨low, high⟩ z tz tv0 tz0 hz
  refine ⟨m, hrun, ?_, ?_⟩
  · rw [htv, tvOf_exact c high low hh hl hge hw hfit]
  · rw [htv, tvOf_exact c high low hh hl hge hw hfit]

/-- C1, the example of the claim: 2.5 seconds of ticks after the epoch give
`tv_sec = 2`, `tv_usec = 500000`. -/
theorem time_conversion_witness :
    ∃ m, wintimeofday win32
          { GetSystemTimeAsFileTime := clockOf 27111902 3602643008,
            GetTimeZoneInformation := none }
          Ptr.obj Ptr.NULL (start ⟨0, 0⟩ ⟨0, 0⟩) = some (0, m) ∧
      m.tvObj.tv_sec = 2 ∧ m.tvObj.tv_usec = 500000 :=
  time_conversion win32 27111902 3602643008 none Ptr.NULL ⟨0, 0⟩ ⟨0, 0⟩
    (by decide) (by decide) (by decide) (by decide) (by decide) (Or.inl rfl)

/-! ## C2: the epoch constant -/

/-- C2. `EPOCH_DIFF` is the number of 100-ns ticks from 1601-01-01 to 1970-01-01
in the Gregorian calendar: 134774 days, that is 369 years of 365 days and 89 leap
days, times 86400 seconds, times 10^7 ticks. A call with a non-null `tv` whose
clock answers exactly that tick count returns 0 and stores `tv_sec = 0`,
`tv_usec = 0`, for every width of `long`. -/
theorem epoch_correct (c : CTypes) (high low : Nat) (z : Option TzAnswer) (tz : Ptr)
    (tv0 : timeval) (tz0 : timezone)
    (hh : high < 2 ^ 32) (hl : low < 2 ^ 32) (heq : ticksOf high low = EPOCH_DIFF)
    (hz : tz = Ptr.NULL ∨ z ≠ none) :
    EPOCH_DIFF = 116444736000000000 ∧
    daysBetween 1601 1970 = 134774 ∧
    leapYearsBetween 1601 1970 = 89 ∧
    134774 = (1970 - 1601) * 365 + leapYearsBetween 1601 1970 ∧
    EPOCH_DIFF = daysBetween 1601 1970 * 86400 * 10000000 ∧
    ∃ m, wintimeofday c
          { GetSystemTimeAsFileTime := clockOf high low, GetTimeZoneInformation := z }
          Ptr.obj tz (start tv0 tz0) = some (0, m) ∧
      m.tvObj.tv_sec = 0 ∧ m.tvObj.tv_usec = 0 := by
  refine ⟨rfl, daysBetween_1601_1970, leapYearsBetween_1601_1970, ?_, ?_, ?_⟩
  · rw [leapYearsBetween_1601_1970]
  · rw [daysBetween_1601_1970]; decide
  · obtain ⟨m, hrun, htv⟩ := run_time c ⟨low, high⟩ z tz tv0 tz0 hz
    have hre : rebase (assemble { dwLowDateTime := low, dwHighDateTime := high }) = 0 := by
      rw [rebase_assemble high low hh hl (Nat.le_of_eq heq.symm), heq, Nat.sub_self]
    have htv0 : tvOf c { dwLowDateTime := low, dwHighDateTime := high } = ⟨0, 0⟩ := by
      unfold tvOf
      rw [hre]
      show timeval.mk (castLong c 0) (castLong c 0) = ⟨0, 0⟩
      rw [castLong_zero]
    refine ⟨m, hrun, ?_, ?_⟩
    · rw [htv, htv0]
    · rw [htv, htv0]

/-- C2 at the halves of `EPOCH_DIFF` itself, 27111902 and 3577643008, on the
`_WIN32` data model, in a time-only call with a poisoned timezone stub. -/
theorem epoch_correct_witness :
    (27111902 < 2 ^ 32 ∧ 3577643008 < 2 ^ 32 ∧ ticksOf 27111902 3577643008 = EPOCH_DIFF) ∧
    ∃ m, wintimeofday win32
          { GetSystemTimeAsFileTime := clockOf 27111902 3577643008,
            GetTimeZoneInformation := none }
          Ptr.obj Ptr.NULL (start ⟨5, 6⟩ ⟨7, 8⟩) = some (0, m) ∧
      m.tvObj.tv_sec = 0 ∧ m.tvObj.tv_usec = 0 :=
  ⟨by decide,
   (epoch_correct win32 27111902 3577643008 none Ptr.NULL ⟨5, 6⟩ ⟨7, 8⟩
      (by decide) (by decide) (by decide) (Or.inl rfl)).2.2.2.2.2⟩

/-! ## C3: truncation -/

/-- C3, as stated, fails on the `_WIN32` data model: at the halves 32111903 and
689217792 (a tick count in 2038, at least `EPOCH_DIFF`) the stored pair is
`tv_sec = -2147483508`, `tv_usec = 654208`, so `tv_sec * 1000000 + tv_usec` is
negative and is not the floor of `d / 10`, and `d - (tv_sec * 10000000 + tv_usec * 10)`
is not below 10. -/
theorem truncation_fails_after_2038 :
    (32111903 < 2 ^ 32 ∧ 689217792 < 2 ^ 32 ∧ EPOCH_DIFF ≤ ticksOf 32111903 689217792) ∧
    wintimeofday win32
        { GetSystemTimeAsFileTime := clockOf 32111903 689217792,
          GetTimeZoneInformation := none }
        Ptr.obj Ptr.NULL (start ⟨0, 0⟩ ⟨0, 0⟩) =
      some (0, { tvObj := ⟨-2147483508, 654208⟩, tzObj := ⟨0, 0⟩,
                 trace := [Event.callGetSystemTimeAsFileTime,
                           Event.storeTvSec (-2147483508), Event.storeTvUsec 654208] }) ∧
    (-2147483508 : Int) * 1000000 + 654208 ≠
      (((ticksOf 32111903 689217792 - EPOCH_DIFF) / 10 : Nat) : Int) ∧
    ¬ (((ticksOf 32111903 689217792 - EPOCH_DIFF : Nat) : Int) -
        ((-2147483508 : Int) * 10000000 + 654208 * 10) < 10) := by
  decide

/-- C3, amended. For 32-bit halves whose tick count `t` is at least `EPOCH_DIFF`,
with `d = t - EPOCH_DIFF` and `d / 10000000` below `2 ^ (longBits - 1)` (the
seconds fit `long`, a type of at least 32 bits), the stored pair satisfies
`tv_sec * 1000000 + tv_usec = floor (d / 10)` and
`0 ≤ d - (tv_sec * 10000000 + tv_usec * 10) < 10`: truncation, never rounding up. -/
theorem truncation (c : CTypes) (high low : Nat) (z : Option TzAnswer) (tz : Ptr)
    (tv0 : timeval) (tz0 : timezone)
    (hh : high < 2 ^ 32) (hl : low < 2 ^ 32) (hge : EPOCH_DIFF ≤ ticksOf high low)
    (hw : 32 ≤ c.longBits)
    (hfit : (ticksOf high low - EPOCH_DIFF) / 10000000 < 2 ^ (c.longBits - 1))
    (hz : tz = Ptr.NULL ∨ z ≠ none) :
    ∃ m, wintimeofday c
          { GetSystemTimeAsFileTime := clockOf high low, GetTimeZoneInformation := z }
          Ptr.obj tz (start tv0 tz0) = some (0, m) ∧
      m.tvObj.tv_sec * 1000000 + m.tvObj.tv_usec =
        (((ticksOf high low - EPOCH_DIFF) / 10 : Nat) : Int) ∧
      0 ≤ ((ticksOf high low - EPOCH_DIFF : Nat) : Int) -
            (m.tvObj.tv_sec * 10000000 + m.tvObj.tv_usec * 10) ∧
      ((ticksOf high low - EPOCH_DIFF : Nat) : Int) -
            (m.tvObj.tv_sec * 10000000 + m.tvObj.tv_usec * 10) < 10 := by
  obtain ⟨m, hrun, htv⟩ := run_time c ⟨low, high⟩ z tz tv0 tz0 hz
  have hex := tvOf_exact c high low hh hl hge hw hfit
  have hs : m.tvObj.tv_sec = (((ticksOf high low - EPOCH_DIFF) / 10000000 : Nat) : Int) := by
    rw [htv, hex]
  have hu : m.tvObj.tv_usec =
      ((((ticksOf high low - EPOCH_DIFF) % 10000000) / 10 : Nat) : Int) := by
    rw [htv, hex]
  refine ⟨m, hrun, ?_, ?_, ?_⟩
  · rw [hs, hu]; omega
  · rw [hs, hu]; omega
  · rw [hs, hu]; omega

/-- C3, the example of the claim: 9 ticks after the epoch (halves 27111902 and
3577643017) give `tv_sec = 0`, `tv_usec = 0`, not 1. -/
theorem truncation_witness :
    (ticksOf 27111902 3577643017 - EPOCH_DIFF = 9) ∧
    (∃ m, wintimeofday win32
          { GetSystemTimeAsFileTime := clockOf 27111902 3577643017,
            GetTimeZoneInformation := none }
          Ptr.obj Ptr.NULL (start ⟨0, 0⟩ ⟨0, 0⟩) = some (0, m) ∧
      m.tvObj.tv_sec * 1000000 + m.tvObj.tv_usec = 0 ∧
      0 ≤ (9 : Int) - (m.tvObj.tv_sec * 10000000 + m.tvObj.tv_usec * 10) ∧
      (9 : Int) - (m.tvObj.tv_sec * 10000000 + m.tvObj.tv_usec * 10) < 10) ∧
    wintimeofday win32
        { GetSystemTimeAsFileTime := clockOf 27111902 3577643017,
          GetTimeZoneInformation := none }
        Ptr.obj Ptr.NULL (start ⟨0, 0⟩ ⟨0, 0⟩) =
      some (0, { tvObj := ⟨0, 0⟩, tzObj := ⟨0, 0⟩,
                 trace := [Event.callGetSystemTimeAsFileTime,
                           Event.storeTvSec 0, Event.storeTvUsec 0] }) :=
  ⟨by decide,
   truncation win32 27111902 3577643017 none Ptr.NULL ⟨0, 0⟩ ⟨0, 0⟩
     (by decide) (by decide) (by decide) (by decide) (by decide) (Or.inl rfl),
   by decide⟩

/-! ## C4: the microsecond range -/

/-- C4. For 32-bit halves whose tick count is at least `EPOCH_DIFF`, on a target
whose `long` has at least 32 bits, a call with a non-null `tv` in which every
invoked query answers returns 0 and stores `0 ≤ tv_usec < 1000000`. -/
theorem usec_range (c : CTypes) (high low : Nat) (z : Option TzAnswer) (tz : Ptr)
    (tv0 : timeval) (tz0 : timezone)
    (hh : high < 2 ^ 32) (hl : low < 2 ^ 32) (hge : EPOCH_DIFF ≤ ticksOf high low)
    (hw : 32 ≤ c.longBits) (hz : tz = Ptr.NULL ∨ z ≠ none) :
    ∃ m, wintimeofday c
          { GetSystemTimeAsFileTime := clockOf high low, GetTimeZoneInformation := z }
          Ptr.obj tz (start tv0 tz0) = some (0, m) ∧
      0 ≤ m.tvObj.tv_usec ∧ m.tvObj.tv_usec < 1000000 ∧
      m.tvObj.tv_usec = ((((ticksOf high low - EPOCH_DIFF) % 10000000) / 10 : Nat) : Int) := by
  obtain ⟨m, hrun, htv⟩ := run_time c ⟨low, high⟩ z tz tv0 tz0 hz
  have hu : m.tvObj.tv_usec =
      ((usecQuot (ticksOf high low - EPOCH_DIFF) : Nat) : Int) := by
    rw [htv]
    show castLong c (usecQuot (rebase (assemble ⟨low, high⟩))) = _
    rw [castLong_usecQuot c hw, rebase_assemble high low hh hl hge]
  have hlt := usecQuot_lt (ticksOf high low - EPOCH_DIFF)
  refine ⟨m, hrun, ?_, ?_, ?_⟩
  · rw [hu]; omega
  · rw [hu]; omega
  · rw [hu]; rfl

/-- C4 at a tick count after 2038 on the `_WIN32` data model, where `tv_sec` has
wrapped: `tv_usec` is still in range. -/
theorem usec_range_witness :
    (32111903 < 2 ^ 32 ∧ 689217792 < 2 ^ 32 ∧ EPOCH_DIFF ≤ ticksOf 32111903 689217792) ∧
    ∃ m, wintimeofday win32
          { GetSystemTimeAsFileTime := clockOf 32111903 689217792,
            GetTimeZoneInformation := zoneOf (-60) 2 0 (-60) }
          Ptr.obj Ptr.obj (start ⟨0, 0⟩ ⟨0, 0⟩) = some (0, m) ∧
      0 ≤ m.tvObj.tv_usec ∧ m.tvObj.tv_usec < 1000000 ∧ m.tvObj.tv_usec = 654208 :=
  ⟨by decide,
   usec_range win32 32111903 689217792 (zoneOf (-60) 2 0 (-60)) Ptr.obj ⟨0, 0⟩ ⟨0, 0⟩
     (by decide) (by decide) (by decide) (by decide) (Or.inr (by decide))⟩

/-! ## C5, C6: the zone -/

theorem toSigned_of_range (w : Nat) (x : Int) (hw : 1 ≤ w)
    (hlo : -(2 : Int) ^ (w - 1) ≤ x) (hhi : x < (2 : Int) ^ (w - 1)) :
    toSigned w x = x := by
  obtain ⟨k, rfl⟩ : ∃ k, w = k + 1 := ⟨w - 1, by omega⟩
  simp only [Nat.add_sub_cancel] at hlo hhi
  have h2 : (2 : Int) ^ (k + 1) = 2 * (2 : Int) ^ k := by rw [pow_succ]; ring
  have hpos : (0 : Int) < (2 : Int) ^ k := by positivity
  simp only [toSigned, Nat.add_sub_cancel, h2]
  generalize (2 : Int) ^ k = P at *
  by_cases hx : 0 ≤ x
  · have hm : x % (2 * P) = x := Int.emod_eq_of_lt hx (by omega)
    rw [hm, if_pos hhi]
  · have hm : x % (2 * P) = x + 2 * P := by
      rw [← Int.add_mul_emod_self_left x (2 * P) 1, Int.mul_one]
      exact Int.emod_eq_of_lt (by omega) (by omega)
    rw [hm, if_neg (by omega)]
    omega

theorem castInt_zero (c : CTypes) : castInt c 0 = 0 := by
  have h : (0 : Nat) < 2 ^ (c.intBits - 1) := Nat.pow_pos (by decide)
  exact toSigned_of_lt _ 0 h

theorem castInt_of_int32 (c : CTypes) (hw : 32 ≤ c.intBits) (b : Int)
    (hlo : -(2 : Int) ^ 31 ≤ b) (hhi : b < (2 : Int) ^ 31) : castInt c b = b := by
  have hp : (2 : Int) ^ 31 ≤ (2 : Int) ^ (c.intBits - 1) :=
    pow_le_pow_right₀ (by norm_num) (by omega)
  exact toSigned_of_range _ _ (by omega) (by omega) (by omega)

/-- C5. For every bias `b` in the signed 32-bit range, every daylight state and
every other field of the platform answer, on a target whose `int` has at
least 32 bits, a call with a non-null `tz` in which every invoked query
answers returns 0 and stores `tz_minuteswest = b`: same sign, no daylight
adjustment. -/
theorem zone_passthrough (c : CTypes) (b : Int) (st : Nat) (sb db : Int)
    (k : Option FILETIME) (tv : Ptr) (tv0 : timeval) (tz0 : timezone)
    (hlo : -(2 : Int) ^ 31 ≤ b) (hhi : b < (2 : Int) ^ 31) (hw : 32 ≤ c.intBits)
    (hk : tv = Ptr.NULL ∨ k ≠ none) :
    ∃ m, wintimeofday c
          { GetSystemTimeAsFileTime := k, GetTimeZoneInformation := zoneOf b st sb db }
          tv Ptr.obj (start tv0 tz0) = some (0, m) ∧
      m.tzObj.tz_minuteswest = b := by
  obtain ⟨m, hrun, htz⟩ := run_zone c k ⟨st, ⟨b, sb, db⟩⟩ tv tv0 tz0 hk
  refine ⟨m, hrun, ?_⟩
  rw [htz]
  exact castInt_of_int32 c hw b hlo hhi

/-- C5, the examples of the claim: bias +120 gives 120 (standard time reported)
and bias -60 gives -60 (daylight time reported, daylight bias -60). -/
theorem zone_passthrough_witness :
    (∃ m, wintimeofday win32
          { GetSystemTimeAsFileTime := none, GetTimeZoneInformation := zoneOf 120 1 0 (-60) }
          Ptr.NULL Ptr.obj (start ⟨0, 0⟩ ⟨7, 7⟩) = some (0, m) ∧
      m.tzObj.tz_minuteswest = 120) ∧
    (∃ m, wintimeofday win32
          { GetSystemTimeAsFileTime := none, GetTimeZoneInformation := zoneOf (-60) 2 0 (-60) }
          Ptr.NULL Ptr.obj (start ⟨0, 0⟩ ⟨7, 7⟩) = some (0, m) ∧
      m.tzObj.tz_minuteswest = -60) :=
  ⟨zone_passthrough win32 120 1 0 (-60) none Ptr.NULL ⟨0, 0⟩ ⟨7, 7⟩
     (by decide) (by decide) (by decide) (Or.inl rfl),
   zone_passthrough win32 (-60) 2 0 (-60) none Ptr.NULL ⟨0, 0⟩ ⟨7, 7⟩
     (by decide) (by decide) (by decide) (Or.inl rfl)⟩

/-- C6. For every platform timezone answer (any bias, any daylight state, any
other field) and every width of `int`, a call with a non-null `tz` in which
every invoked query answers returns 0 and stores `tz_dsttime = 0`. -/
theorem dsttime_zero (c : CTypes) (a : TzAnswer) (k : Option FILETIME) (tv : Ptr)
    (tv0 : timeval) (tz0 : timezone) (hk : tv = Ptr.NULL ∨ k ≠ none) :
    ∃ m, wintimeofday c
          { GetSystemTimeAsFileTime := k, GetTimeZoneInformation := some a }
          tv Ptr.obj (start tv0 tz0) = some (0, m) ∧
      m.tzObj.tz_dsttime = 0 ∧ Event.storeTzDsttime 0 ∈ m.trace := by
  cases tv with
  | NULL =>
    refine ⟨_, rfl, castInt_zero c, ?_⟩
    simp [start, castInt_zero]
  | obj =>
    cases k with
    | none => simp at hk
    | some ft =>
      refine ⟨_, rfl, castInt_zero c, ?_⟩
      simp [start, castInt_zero]

/-- C6 at an answer that reports daylight time (state 2, daylight bias -60),
with a `tz` object that held `tz_dsttime = 1` before the call. -/
theorem dsttime_zero_witness :
    ∃ m, wintimeofday win32
          { GetSystemTimeAsFileTime := clockOf 27111902 3577643008,
            GetTimeZoneInformation := zoneOf (-60) 2 0 (-60) }
          Ptr.obj Ptr.obj (start ⟨0, 0⟩ ⟨0, 1⟩) = some (0, m) ∧
      m.tzObj.tz_dsttime = 0 ∧ Event.storeTzDsttime 0 ∈ m.trace :=
  dsttime_zero win32 ⟨2, ⟨-60, 0, -60⟩⟩ (clockOf 27111902 3577643008) Ptr.obj ⟨0, 0⟩ ⟨0, 1⟩
    (Or.inr (by decide))

/-! ## C7, C8: which queries are made and which outputs are written -/

/-- C7. In a time-only call (`tv` non-null, `tz` null) the result is the same
for every two timezone stubs, the poisoned one included; the call returns 0,
`GetTimeZoneInformation` is not in the trace and the `tz` object is untouched.
In a zone-only call (`tz` non-null, `tv` null) the result is the same for
every two clock stubs, the poisoned one included; the call returns 0,
`GetSystemTimeAsFileTime` is not in the trace and the `tv` object is untouched. -/
theorem independence_of_outputs (c : CTypes) (ft : FILETIME) (a : TzAnswer)
    (z z' : Option TzAnswer) (k k' : Option FILETIME) (tv0 : timeval) (tz0 : timezone) :
    (wintimeofday c { GetSystemTimeAsFileTime := some ft, GetTimeZoneInformation := z }
        Ptr.obj Ptr.NULL (start tv0 tz0) =
      wintimeofday c { GetSystemTimeAsFileTime := some ft, GetTimeZoneInformation := z' }
        Ptr.obj Ptr.NULL (start tv0 tz0)) ∧
    (∃ m, wintimeofday c { GetSystemTimeAsFileTime := some ft, GetTimeZoneInformation := none }
        Ptr.obj Ptr.NULL (start tv0 tz0) = some (0, m) ∧
      Event.callGetTimeZoneInformation ∉ m.trace ∧ m.trace.any Event.isTzStore = false ∧
      m.tzObj = tz0 ∧ m.tvObj = tvOf c ft) ∧
    (wintimeofday c { GetSystemTimeAsFileTime := k, GetTimeZoneInformation := some a }
        Ptr.NULL Ptr.obj (start tv0 tz0) =
      wintimeofday c { GetSystemTimeAsFileTime := k', GetTimeZoneInformation := some a }
        Ptr.NULL Ptr.obj (start tv0 tz0)) ∧
    (∃ m, wintimeofday c { GetSystemTimeAsFileTime := none, GetTimeZoneInformation := some a }
        Ptr.NULL Ptr.obj (start tv0 tz0) = some (0, m) ∧
      Event.callGetSystemTimeAsFileTime ∉ m.trace ∧ m.trace.any Event.isTvStore = false ∧
      m.tvObj = tv0 ∧ m.tzObj = tzOf c a.tzinfo) := by
  refine ⟨rfl, ⟨_, rfl, ?_, ?_, rfl, rfl⟩, rfl, ⟨_, rfl, ?_, ?_, rfl, rfl⟩⟩
  · simp [start]
  · simp [start, Event.isTzStore]
  · simp [start]
  · simp [start, Event.isTvStore]

/-- C8. For every combination of the two pointers and every answer of the clock
and of the timezone query, the call returns 0; the trace has a store through
`tv`, and the clock query, exactly when `tv` is non-null, and a store through
`tz`, and the timezone query, exactly when `tz` is non-null; an object whose
pointer is null is unchanged and one whose pointer is non-null holds the
computed value. With both pointers null the call returns 0 with the machine
unchanged (nothing written, nothing queried), whatever the stubs are, poisoned
or not. -/
theorem exactly_requested_outputs (c : CTypes) (ft : FILETIME) (a : TzAnswer) (tv tz : Ptr)
    (p : Platform) (tv0 : timeval) (tz0 : timezone) (m0 : Machine) :
    (∃ m, wintimeofday c { GetSystemTimeAsFileTime := some ft, GetTimeZoneInformation := some a }
        tv tz (start tv0 tz0) = some (0, m) ∧
      (m.trace.any Event.isTvStore = true ↔ tv ≠ Ptr.NULL) ∧
      (m.trace.any Event.isTzStore = true ↔ tz ≠ Ptr.NULL) ∧
      (Event.callGetSystemTimeAsFileTime ∈ m.trace ↔ tv ≠ Ptr.NULL) ∧
      (Event.callGetTimeZoneInformation ∈ m.trace ↔ tz ≠ Ptr.NULL) ∧
      m.tvObj = (if tv = Ptr.NULL then tv0 else tvOf c ft) ∧
      m.tzObj = (if tz = Ptr.NULL then tz0 else tzOf c a.tzinfo)) ∧
    wintimeofday c p Ptr.NULL Ptr.NULL m0 = some (0, m0) := by
  refine ⟨?_, rfl⟩
  cases tv <;> cases tz <;>
    exact ⟨_, rfl, by simp [start, Event.isTvStore], by simp [start, Event.isTzStore],
      by simp [start], by simp [start], rfl, rfl⟩

/-! ## C9: assembling the tick count -/

/-- C9. For 32-bit halves, `0 | (high << 32) | low` in unsigned 64-bit
arithmetic is `high * 2 ^ 32 + low`, below `2 ^ 64`; the halves are recovered
by `>> 32` and by `mod 2 ^ 32`; so other 32-bit halves with the same
assembled value are the same halves. -/
theorem assemble_exact (high low : Nat) (hh : high < 2 ^ 32) (hl : low < 2 ^ 32) :
    assemble { dwLowDateTime := low, dwHighDateTime := high } = high * 2 ^ 32 + low ∧
    assemble { dwLowDateTime := low, dwHighDateTime := high } < 2 ^ 64 ∧
    assemble { dwLowDateTime := low, dwHighDateTime := high } >>> 32 = high ∧
    assemble { dwLowDateTime := low, dwHighDateTime := high } % 2 ^ 32 = low ∧
    ∀ high' low' : Nat, high' < 2 ^ 32 → low' < 2 ^ 32 →
      assemble { dwLowDateTime := low', dwHighDateTime := high' } =
        assemble { dwLowDateTime := low, dwHighDateTime := high } →
      high' = high ∧ low' = low := by
  have he := assemble_eq high low hh hl
  unfold ticksOf at he
  refine ⟨he, ?_, ?_, ?_, ?_⟩
  · rw [he]; omega
  · rw [he, Nat.shiftRight_eq_div_pow]; omega
  · rw [he]; omega
  · intro high' low' hh' hl' heq
    have he' := assemble_eq high' low' hh' hl'
    unfold ticksOf at he'
    rw [he, he'] at heq
    omega

/-- C9 at the largest halves: the assembled value is `2 ^ 64 - 1`, no bit lost. -/
theorem assemble_exact_witness :
    assemble { dwLowDateTime := 4294967295, dwHighDateTime := 4294967295 } =
      4294967295 * 2 ^ 32 + 4294967295 ∧
    assemble { dwLowDateTime := 4294967295, dwHighDateTime := 4294967295 } < 2 ^ 64 ∧
    assemble { dwLowDateTime := 4294967295, dwHighDateTime := 4294967295 } >>> 32 = 4294967295 ∧
    assemble { dwLowDateTime := 4294967295, dwHighDateTime := 4294967295 } % 2 ^ 32 = 4294967295 ∧
    ∀ high' low' : Nat, high' < 2 ^ 32 → low' < 2 ^ 32 →
      assemble { dwLowDateTime := low', dwHighDateTime := high' } =
        assemble { dwLowDateTime := 4294967295, dwHighDateTime := 4294967295 } →
      high' = 4294967295 ∧ low' = 4294967295 :=
  assemble_exact 4294967295 4294967295 (by decide) (by decide)

/-! ## C10: the two sub-results -/

/-- C10. There are a function `f` of the assembled tick count and a function `g`
of the bias such that, for every clock answer, every timezone answer and
every initial content of the objects, a call with both pointers non-null, a
time-only call on the same clock answer (any timezone stub) and a zone-only
call on the same timezone answer (any clock stub) all return 0, the first
stores the same `timeval` as the second, namely `f` of the tick count, and the
same `timezone` as the third, namely `g` of the bias. -/
theorem sub_results_independent (c : CTypes) :
    ∃ (f : Nat → timeval) (g : Int → timezone),
      ∀ (ft : FILETIME) (a : TzAnswer) (z : Option TzAnswer) (k : Option FILETIME)
        (tvA tvB tvC : timeval) (tzA tzB tzC : timezone),
        ∃ mb mt mz,
          wintimeofday c { GetSystemTimeAsFileTime := some ft, GetTimeZoneInformation := some a }
              Ptr.obj Ptr.obj (start tvA tzA) = some (0, mb) ∧
          wintimeofday c { GetSystemTimeAsFileTime := some ft, GetTimeZoneInformation := z }
              Ptr.obj Ptr.NULL (start tvB tzB) = some (0, mt) ∧
          wintimeofday c { GetSystemTimeAsFileTime := k, GetTimeZoneInformation := some a }
              Ptr.NULL Ptr.obj (start tvC tzC) = some (0, mz) ∧
          mb.tvObj = mt.tvObj ∧ mb.tzObj = mz.tzObj ∧
          mb.tvObj = f (assemble ft) ∧ mb.tzObj = g a.tzinfo.Bias := by
  refine ⟨fun t => ⟨castLong c (secQuot (rebase t)), castLong c (usecQuot (rebase t))⟩,
    fun b => ⟨castInt c b, castInt c 0⟩, ?_⟩
  intro ft a z k tvA tvB tvC tzA tzB tzC
  exact ⟨_, _, _, rfl, rfl, rfl, rfl, rfl, rfl, rfl⟩

/-! ## C11: the conversion has a right inverse -/

theorem ticksOf_halves (t : Nat) (ht : t < 2 ^ 64) :
    t / 2 ^ 32 < 2 ^ 32 ∧ t % 2 ^ 32 < 2 ^ 32 ∧ ticksOf (t / 2 ^ 32) (t % 2 ^ 32) = t := by
  unfold ticksOf
  omega

/-- C11, as stated, fails on the `_WIN32` data model: for `s = 4000000000` and
`u = 123456` the tick count `EPOCH_DIFF + s * 10000000 + u * 10` is below
`2 ^ 64`, its halves are 36425128 and 2488620672, and the call stores
`tv_sec = -294967296`, not `s`. -/
theorem right_inverse_fails_after_2038 :
    EPOCH_DIFF + 4000000000 * 10000000 + 123456 * 10 < 2 ^ 64 ∧
    123456 < 1000000 ∧
    (EPOCH_DIFF + 4000000000 * 10000000 + 123456 * 10) / 2 ^ 32 = 36425128 ∧
    (EPOCH_DIFF + 4000000000 * 10000000 + 123456 * 10) % 2 ^ 32 = 2488620672 ∧
    wintimeofday win32
        { GetSystemTimeAsFileTime := clockOf 36425128 2488620672,
          GetTimeZoneInformation := none }
        Ptr.obj Ptr.NULL (start ⟨0, 0⟩ ⟨0, 0⟩) =
      some (0, { tvObj := ⟨-294967296, 123456⟩, tzObj := ⟨0, 0⟩,
                 trace := [Event.callGetSystemTimeAsFileTime,
                           Event.storeTvSec (-294967296), Event.storeTvUsec 123456] }) ∧
    (-294967296 : Int) ≠ ((4000000000 : Nat) : Int) := by
  decide

/-- C11, amended. For every `s` below `2 ^ (longBits - 1)` (`long` of at least
32 bits) and every `u < 1000000` with `EPOCH_DIFF + s * 10000000 + u * 10`
below `2 ^ 64`, the halves of that tick count are 32-bit values, and a call
with a non-null `tv` whose clock answers them returns 0 and stores exactly
`tv_sec = s`, `tv_usec = u`: every such pair is reached and nothing is lost on
whole microseconds. -/
theorem right_inverse (c : CTypes) (s u : Nat) (z : Option TzAnswer) (tz : Ptr)
    (tv0 : timeval) (tz0 : timezone)
    (hu : u < 1000000) (ht : EPOCH_DIFF + s * 10000000 + u * 10 < 2 ^ 64)
    (hw : 32 ≤ c.longBits) (hfit : s < 2 ^ (c.longBits - 1))
    (hz : tz = Ptr.NULL ∨ z ≠ none) :
    (EPOCH_DIFF + s * 10000000 + u * 10) / 2 ^ 32 < 2 ^ 32 ∧
    (EPOCH_DIFF + s * 10000000 + u * 10) % 2 ^ 32 < 2 ^ 32 ∧
    ticksOf ((EPOCH_DIFF + s * 10000000 + u * 10) / 2 ^ 32)
        ((EPOCH_DIFF + s * 10000000 + u * 10) % 2 ^ 32) =
      EPOCH_DIFF + s * 10000000 + u * 10 ∧
    ∃ m, wintimeofday c
          { GetSystemTimeAsFileTime :=
              clockOf ((EPOCH_DIFF + s * 10000000 + u * 10) / 2 ^ 32)
                ((EPOCH_DIFF + s * 10000000 + u * 10) % 2 ^ 32),
            GetTimeZoneInformation := z }
          Ptr.obj tz (start tv0 tz0) = some (0, m) ∧
      m.tvObj.tv_sec = (s : Int) ∧ m.tvObj.tv_usec = (u : Int) := by
  obtain ⟨hh, hl, htk⟩ := ticksOf_halves _ ht
  refine ⟨hh, hl, htk, ?_⟩
  obtain ⟨m, hrun, htv⟩ := run_time c ⟨_, _⟩ z tz tv0 tz0 hz
  have hge : EPOCH_DIFF ≤ ticksOf ((EPOCH_DIFF + s * 10000000 + u * 10) / 2 ^ 32)
      ((EPOCH_DIFF + s * 10000000 + u * 10) % 2 ^ 32) := by rw [htk]; omega
  have hsq : (EPOCH_DIFF + s * 10000000 + u * 10 - EPOCH_DIFF) / 10000000 = s := by omega
  have huq : (EPOCH_DIFF + s * 10000000 + u * 10 - EPOCH_DIFF) % 10000000 / 10 = u := by omega
  have hex := tvOf_exact c _ _ hh hl hge hw (by rw [htk, hsq]; exact hfit)
  rw [htk, hsq, huq] at hex
  exact ⟨m, hrun, by rw [htv, hex], by rw [htv, hex]⟩

/-- C11 at `s = 2147483647`, `u = 999999`, the last whole microsecond a 32-bit
`long` can hold, on the `_WIN32` data model. -/
theorem right_inverse_witness :
    (999999 < 1000000 ∧ EPOCH_DIFF + 2147483647 * 10000000 + 999999 * 10 < 2 ^ 64 ∧
      2147483647 < 2 ^ (win32.longBits - 1)) ∧
    ∃ m, wintimeofday win32
          { GetSystemTimeAsFileTime :=
              clockOf ((EPOCH_DIFF + 2147483647 * 10000000 + 999999 * 10) / 2 ^ 32)
                ((EPOCH_DIFF + 2147483647 * 10000000 + 999999 * 10) % 2 ^ 32),
            GetTimeZoneInformation := none }
          Ptr.obj Ptr.NULL (start ⟨0, 0⟩ ⟨0, 0⟩) = some (0, m) ∧
      m.tvObj.tv_sec = 2147483647 ∧ m.tvObj.tv_usec = 999999 :=
  ⟨by decide,
   (right_inverse win32 2147483647 999999 none Ptr.NULL ⟨0, 0⟩ ⟨0, 0⟩
      (by decide) (by decide) (by decide) (by decide) (Or.inl rfl)).2.2.2⟩

/-! ## C12: monotonicity -/

/-- C12, as stated, fails on the `_WIN32` data model: the tick count with halves
27111902, 3602643008 (2.5 s after the epoch) is at least `EPOCH_DIFF` and at most
the one with halves 36425128, 2488620672 (in 2096), yet the first converts to
`(2, 500000)` and the second to `(-294967296, 123456)`, an earlier time. -/
theorem monotone_fails_after_2038 :
    (27111902 < 2 ^ 32 ∧ 3602643008 < 2 ^ 32 ∧ 36425128 < 2 ^ 32 ∧ 2488620672 < 2 ^ 32) ∧
    EPOCH_DIFF ≤ ticksOf 27111902 3602643008 ∧
    ticksOf 27111902 3602643008 ≤ ticksOf 36425128 2488620672 ∧
    wintimeofday win32
        { GetSystemTimeAsFileTime := clockOf 27111902 3602643008,
          GetTimeZoneInformation := none }
        Ptr.obj Ptr.NULL (start ⟨0, 0⟩ ⟨0, 0⟩) =
      some (0, { tvObj := ⟨2, 500000⟩, tzObj := ⟨0, 0⟩,
                 trace := [Event.callGetSystemTimeAsFileTime,
                           Event.storeTvSec 2, Event.storeTvUsec 500000] }) ∧
    wintimeofday win32
        { GetSystemTimeAsFileTime := clockOf 36425128 2488620672,
          GetTimeZoneInformation := none }
        Ptr.obj Ptr.NULL (start ⟨0, 0⟩ ⟨0, 0⟩) =
      some (0, { tvObj := ⟨-294967296, 123456⟩, tzObj := ⟨0, 0⟩,
                 trace := [Event.callGetSystemTimeAsFileTime,
                           Event.storeTvSec (-294967296), Event.storeTvUsec 123456] }) ∧
    ¬ ((2 : Int) < -294967296 ∨ ((2 : Int) = -294967296 ∧ (500000 : Int) ≤ 123456)) ∧
    ¬ ((2 : Int) * 1000000 + 500000 ≤ (-294967296 : Int) * 1000000 + 123456) := by
  decide

/-- C12, amended. For tick counts `t1 ≤ t2` from 32-bit halves with
`t1 ≥ EPOCH_DIFF` and the seconds quotient of `t2` below `2 ^ (longBits - 1)`
(`long` of at least 32 bits), two calls with a non-null `tv` return 0 and their
results satisfy `(tv_sec1, tv_usec1) ≤ (tv_sec2, tv_usec2)` lexicographically and
`tv_sec1 * 1000000 + tv_usec1 ≤ tv_sec2 * 1000000 + tv_usec2`. -/
theorem monotone (c : CTypes) (high1 low1 high2 low2 : Nat)
    (z1 z2 : Option TzAnswer) (tz1 tz2 : Ptr) (tvA tvB : timeval) (tzA tzB : timezone)
    (hh1 : high1 < 2 ^ 32) (hl1 : low1 < 2 ^ 32) (hh2 : high2 < 2 ^ 32) (hl2 : low2 < 2 ^ 32)
    (hge : EPOCH_DIFF ≤ ticksOf high1 low1) (hle : ticksOf high1 low1 ≤ ticksOf high2 low2)
    (hw : 32 ≤ c.longBits)
    (hfit : (ticksOf high2 low2 - EPOCH_DIFF) / 10000000 < 2 ^ (c.longBits - 1))
    (hz1 : tz1 = Ptr.NULL ∨ z1 ≠ none) (hz2 : tz2 = Ptr.NULL ∨ z2 ≠ none) :
    ∃ m1 m2,
      wintimeofday c
          { GetSystemTimeAsFileTime := clockOf high1 low1, GetTimeZoneInformation := z1 }
          Ptr.obj tz1 (start tvA tzA) = some (0, m1) ∧
      wintimeofday c
          { GetSystemTimeAsFileTime := clockOf high2 low2, GetTimeZoneInformation := z2 }
          Ptr.obj tz2 (start tvB tzB) = some (0, m2) ∧
      (m1.tvObj.tv_sec < m2.tvObj.tv_sec ∨
        (m1.tvObj.tv_sec = m2.tvObj.tv_sec ∧ m1.tvObj.tv_usec ≤ m2.tvObj.tv_usec)) ∧
      m1.tvObj.tv_sec * 1000000 + m1.tvObj.tv_usec ≤
        m2.tvObj.tv_sec * 1000000 + m2.tvObj.tv_usec := by
  obtain ⟨m1, hrun1, htv1⟩ := run_time c ⟨low1, high1⟩ z1 tz1 tvA tzA hz1
  obtain ⟨m2, hrun2, htv2⟩ := run_time c ⟨low2, high2⟩ z2 tz2 tvB tzB hz2
  have hfit1 : (ticksOf high1 low1 - EPOCH_DIFF) / 10000000 < 2 ^ (c.longBits - 1) := by
    have : (ticksOf high1 low1 - EPOCH_DIFF) / 10000000 ≤
        (ticksOf high2 low2 - EPOCH_DIFF) / 10000000 :=
      Nat.div_le_div_right (Nat.sub_le_sub_right hle _)
    omega
  have hex1 := tvOf_exact c high1 low1 hh1 hl1 hge hw hfit1
  have hex2 := tvOf_exact c high2 low2 hh2 hl2 (Nat.le_trans hge hle) hw hfit
  have hs1 : m1.tvObj.tv_sec = (((ticksOf high1 low1 - EPOCH_DIFF) / 10000000 : Nat) : Int) := by
    rw [htv1, hex1]
  have hu1 : m1.tvObj.tv_usec =
      ((((ticksOf high1 low1 - EPOCH_DIFF) % 10000000) / 10 : Nat) : Int) := by
    rw [htv1, hex1]
  have hs2 : m2.tvObj.tv_sec = (((ticksOf high2 low2 - EPOCH_DIFF) / 10000000 : Nat) : Int) := by
    rw [htv2, hex2]
  have hu2 : m2.tvObj.tv_usec =
      ((((ticksOf high2 low2 - EPOCH_DIFF) % 10000000) / 10 : Nat) : Int) := by
    rw [htv2, hex2]
  have hd : ticksOf high1 low1 - EPOCH_DIFF ≤ ticksOf high2 low2 - EPOCH_DIFF :=
    Nat.sub_le_sub_right hle _
  refine ⟨m1, m2, hrun1, hrun2, ?_, ?_⟩
  · rw [hs1, hu1, hs2, hu2]; omega
  · rw [hs1, hu1, hs2, hu2]; omega

/-- C12 across the last second a 32-bit `long` can hold: the tick counts with
halves 27111902, 3602643008 and 32111902, 3577642998 convert to `(2, 500000)`
and `(2147483647, 999999)` on the `_WIN32` data model. -/
theorem monotone_witness :
    (EPOCH_DIFF ≤ ticksOf 27111902 3602643008 ∧
      ticksOf 27111902 3602643008 ≤ ticksOf 32111902 3577642998 ∧
      (ticksOf 32111902 3577642998 - EPOCH_DIFF) / 10000000 < 2 ^ (win32.longBits - 1)) ∧
    ∃ m1 m2,
      wintimeofday win32
          { GetSystemTimeAsFileTime := clockOf 27111902 3602643008,
            GetTimeZoneInformation := none }
          Ptr.obj Ptr.NULL (start ⟨0, 0⟩ ⟨0, 0⟩) = some (0, m1) ∧
      wintimeofday win32
          { GetSystemTimeAsFileTime := clockOf 32111902 3577642998,
            GetTimeZoneInformation := zoneOf 120 1 0 (-60) }
          Ptr.obj Ptr.obj (start ⟨0, 0⟩ ⟨0, 0⟩) = some (0, m2) ∧
      (m1.tvObj.tv_sec < m2.tvObj.tv_sec ∨
        (m1.tvObj.tv_sec = m2.tvObj.tv_sec ∧ m1.tvObj.tv_usec ≤ m2.tvObj.tv_usec)) ∧
      m1.tvObj.tv_sec * 1000000 + m1.tvObj.tv_usec ≤
        m2.tvObj.tv_sec * 1000000 + m2.tvObj.tv_usec :=
  ⟨by decide,
   monotone win32 27111902 3602643008 32111902 3577642998 none (zoneOf 120 1 0 (-60))
     Ptr.NULL Ptr.obj ⟨0, 0⟩ ⟨0, 0⟩ ⟨0, 0⟩ ⟨0, 0⟩
     (by decide) (by decide) (by decide) (by decide) (by decide) (by decide) (by decide)
     (by decide) (Or.inl rfl) (Or.inr (by decide))⟩

/-! ## C13: the width of the result fields -/

theorem two_pow_63_le (w : Nat) (hw : 64 ≤ w) : 2 ^ 63 ≤ 2 ^ (w - 1) :=
  Nat.pow_le_pow_right (by decide) (by omega)

theorem rebase_of_lt (t : Nat) (hlt : t < EPOCH_DIFF) :
    rebase t = t + 2 ^ 64 - EPOCH_DIFF := by
  unfold rebase EPOCH_DIFF at *
  omega

/-- C13. For 32-bit halves with tick count `t`: (a) if
`EPOCH_DIFF ≤ t < EPOCH_DIFF + 2 ^ 31 * 10000000` the seconds quotient
`(t - EPOCH_DIFF) / 10000000` is at most `2 ^ 31 - 1` and the cast to a `long` of
at least 32 bits preserves it, so the call stores both quotients unchanged;
(b) for every `t` the microsecond value is at most 999999 and the cast
preserves it; (c) if `EPOCH_DIFF ≤ t` (and `t < 2 ^ 64`, as for all halves) the
seconds quotient is at most 1833029933770 and a `long` of at least 64 bits
stores it unchanged. -/
theorem field_widths (c c64 : CTypes) (high low : Nat) (z : Option TzAnswer) (tz : Ptr)
    (tv0 : timeval) (tz0 : timezone)
    (hh : high < 2 ^ 32) (hl : low < 2 ^ 32)
    (hw : 32 ≤ c.longBits) (hw64 : 64 ≤ c64.longBits)
    (hz : tz = Ptr.NULL ∨ z ≠ none) :
    (EPOCH_DIFF ≤ ticksOf high low → ticksOf high low < EPOCH_DIFF + 2 ^ 31 * 10000000 →
      (ticksOf high low - EPOCH_DIFF) / 10000000 ≤ 2 ^ 31 - 1 ∧
      castLong c (secQuot (rebase (assemble { dwLowDateTime := low, dwHighDateTime := high }))) =
        (((ticksOf high low - EPOCH_DIFF) / 10000000 : Nat) : Int) ∧
      ∃ m, wintimeofday c
            { GetSystemTimeAsFileTime := clockOf high low, GetTimeZoneInformation := z }
            Ptr.obj tz (start tv0 tz0) = some (0, m) ∧
        m.tvObj.tv_sec = (((ticksOf high low - EPOCH_DIFF) / 10000000 : Nat) : Int) ∧
        m.tvObj.tv_usec =
          ((((ticksOf high low - EPOCH_DIFF) % 10000000) / 10 : Nat) : Int)) ∧
    (usecQuot (rebase (assemble { dwLowDateTime := low, dwHighDateTime := high })) ≤ 999999 ∧
      castLong c (usecQuot (rebase (assemble { dwLowDateTime := low, dwHighDateTime := high }))) =
        ((usecQuot (rebase (assemble { dwLowDateTime := low, dwHighDateTime := high })) : Nat)
          : Int)) ∧
    (EPOCH_DIFF ≤ ticksOf high low →
      ticksOf high low < 2 ^ 64 ∧
      (ticksOf high low - EPOCH_DIFF) / 10000000 ≤ 1833029933770 ∧
      castLong c64
          (secQuot (rebase (assemble { dwLowDateTime := low, dwHighDateTime := high }))) =
        (((ticksOf high low - EPOCH_DIFF) / 10000000 : Nat) : Int) ∧
      ∃ m, wintimeofday c64
            { GetSystemTimeAsFileTime := clockOf high low, GetTimeZoneInformation := z }
            Ptr.obj tz (start tv0 tz0) = some (0, m) ∧
        m.tvObj.tv_sec = (((ticksOf high low - EPOCH_DIFF) / 10000000 : Nat) : Int)) := by
  have hE : EPOCH_DIFF = 116444736000000000 := rfl
  have h31 := two_pow_31_le c.longBits hw
  have h63 := two_pow_63_le c64.longBits hw64
  have htlt := ticksOf_lt high low hh hl
  refine ⟨?_, ⟨?_, castLong_usecQuot c hw _⟩, ?_⟩
  · intro hge hlt
    have hq : (ticksOf high low - EPOCH_DIFF) / 10000000 ≤ 2 ^ 31 - 1 := by omega
    have hfit : (ticksOf high low - EPOCH_DIFF) / 10000000 < 2 ^ (c.longBits - 1) := by omega
    refine ⟨hq, ?_, ?_⟩
    · rw [rebase_assemble high low hh hl hge]
      exact toSigned_of_lt _ _ hfit
    · obtain ⟨m, hrun, htv⟩ := run_time c ⟨low, high⟩ z tz tv0 tz0 hz
      have hex := tvOf_exact c high low hh hl hge hw hfit
      exact ⟨m, hrun, by rw [htv, hex], by rw [htv, hex]⟩
  · have := usecQuot_lt (rebase (assemble { dwLowDateTime := low, dwHighDateTime := high }))
    omega
  · intro hge
    have hq : (ticksOf high low - EPOCH_DIFF) / 10000000 ≤ 1833029933770 := by omega
    have hfit : (ticksOf high low - EPOCH_DIFF) / 10000000 < 2 ^ (c64.longBits - 1) := by omega
    refine ⟨htlt, hq, ?_, ?_⟩
    · rw [rebase_assemble high low hh hl hge]
      exact toSigned_of_lt _ _ hfit
    · obtain ⟨m, hrun, htv⟩ := run_time c64 ⟨low, high⟩ z tz tv0 tz0 hz
      have hex := tvOf_exact c64 high low hh hl hge (by omega) hfit
      exact ⟨m, hrun, by rw [htv, hex]⟩

/-- C13 at the halves 32111902, 3577642998 (2038-01-19T03:14:07.999999Z, the last
instant of part (a)): on the `_WIN32` data model the call stores
`(2147483647, 999999)`, and so it does with a 64-bit `long`. -/
theorem field_widths_witness :
    (EPOCH_DIFF ≤ ticksOf 32111902 3577642998 ∧
      ticksOf 32111902 3577642998 < EPOCH_DIFF + 2 ^ 31 * 10000000) ∧
    (∃ m, wintimeofday win32
          { GetSystemTimeAsFileTime := clockOf 32111902 3577642998,
            GetTimeZoneInformation := none }
          Ptr.obj Ptr.NULL (start ⟨0, 0⟩ ⟨0, 0⟩) = some (0, m) ∧
      m.tvObj.tv_sec = 2147483647 ∧ m.tvObj.tv_usec = 999999) ∧
    (∃ m, wintimeofday lp64
          { GetSystemTimeAsFileTime := clockOf 32111902 3577642998,
            GetTimeZoneInformation := none }
          Ptr.obj Ptr.NULL (start ⟨0, 0⟩ ⟨0, 0⟩) = some (0, m) ∧
      m.tvObj.tv_sec = 2147483647) :=
  ⟨by decide,
   ((field_widths win32 lp64 32111902 3577642998 none Ptr.NULL ⟨0, 0⟩ ⟨0, 0⟩
      (by decide) (by decide) (by decide) (by decide) (Or.inl rfl)).1
      (by decide) (by decide)).2.2,
   ((field_widths win32 lp64 32111902 3577642998 none Ptr.NULL ⟨0, 0⟩ ⟨0, 0⟩
      (by decide) (by decide) (by decide) (by decide) (Or.inl rfl)).2.2
      (by decide)).2.2.2⟩

/-! ## C14: below the precondition -/

/-- C14. For 32-bit halves whose tick count `t` is below `EPOCH_DIFF`, the
subtraction wraps: the rebased value is `t + 2 ^ 64 - EPOCH_DIFF`, the seconds
quotient is `(t + 2 ^ 64 - EPOCH_DIFF) / 10000000`, at least 1833029933770, and
positive. A call with a non-null `tv` still returns 0; it stores the cast
of that quotient in `tv_sec` and
`tv_usec = ((t + 2 ^ 64 - EPOCH_DIFF) % 10000000) / 10`, with
`0 ≤ tv_usec < 1000000` (`long` of at least 32 bits). With a `long` of at least
64 bits the stored `tv_sec` is the quotient itself. -/
theorem below_precondition (c c64 : CTypes) (high low : Nat) (z : Option TzAnswer) (tz : Ptr)
    (tv0 : timeval) (tz0 : timezone)
    (hh : high < 2 ^ 32) (hl : low < 2 ^ 32) (hlt : ticksOf high low < EPOCH_DIFF)
    (hw : 32 ≤ c.longBits) (hw64 : 64 ≤ c64.longBits)
    (hz : tz = Ptr.NULL ∨ z ≠ none) :
    rebase (assemble { dwLowDateTime := low, dwHighDateTime := high }) =
      ticksOf high low + 2 ^ 64 - EPOCH_DIFF ∧
    secQuot (rebase (assemble { dwLowDateTime := low, dwHighDateTime := high })) =
      (ticksOf high low + 2 ^ 64 - EPOCH_DIFF) / 10000000 ∧
    1833029933770 ≤ (ticksOf high low + 2 ^ 64 - EPOCH_DIFF) / 10000000 ∧
    (∃ m, wintimeofday c
          { GetSystemTimeAsFileTime := clockOf high low, GetTimeZoneInformation := z }
          Ptr.obj tz (start tv0 tz0) = some (0, m) ∧
      m.tvObj.tv_sec = castLong c ((ticksOf high low + 2 ^ 64 - EPOCH_DIFF) / 10000000) ∧
      m.tvObj.tv_usec =
        ((((ticksOf high low + 2 ^ 64 - EPOCH_DIFF) % 10000000) / 10 : Nat) : Int) ∧
      0 ≤ m.tvObj.tv_usec ∧ m.tvObj.tv_usec < 1000000) ∧
    (∃ m, wintimeofday c64
          { GetSystemTimeAsFileTime := clockOf high low, GetTimeZoneInformation := z }
          Ptr.obj tz (start tv0 tz0) = some (0, m) ∧
      m.tvObj.tv_sec =
        (((ticksOf high low + 2 ^ 64 - EPOCH_DIFF) / 10000000 : Nat) : Int) ∧
      1833029933770 ≤ m.tvObj.tv_sec) := by
  have hE : EPOCH_DIFF = 116444736000000000 := rfl
  have hre : rebase (assemble { dwLowDateTime := low, dwHighDateTime := high }) =
      ticksOf high low + 2 ^ 64 - EPOCH_DIFF := by
    rw [assemble_eq high low hh hl, rebase_of_lt _ hlt]
  have hq : 1833029933770 ≤ (ticksOf high low + 2 ^ 64 - EPOCH_DIFF) / 10000000 := by omega
  have hq2 : (ticksOf high low + 2 ^ 64 - EPOCH_DIFF) / 10000000 < 2 ^ 63 := by omega
  have h63 := two_pow_63_le c64.longBits hw64
  refine ⟨hre, by rw [hre]; rfl, hq, ?_, ?_⟩
  · obtain ⟨m, hrun, htv⟩ := run_time c ⟨low, high⟩ z tz tv0 tz0 hz
    have hs : m.tvObj.tv_sec =
        castLong c ((ticksOf high low + 2 ^ 64 - EPOCH_DIFF) / 10000000) := by
      rw [htv]
      show castLong c (secQuot (rebase (assemble ⟨low, high⟩))) = _
      rw [hre]; rfl
    have hu : m.tvObj.tv_usec =
        ((usecQuot (ticksOf high low + 2 ^ 64 - EPOCH_DIFF) : Nat) : Int) := by
      rw [htv]
      show castLong c (usecQuot (rebase (assemble ⟨low, high⟩))) = _
      rw [castLong_usecQuot c hw, hre]
    have hlt6 := usecQuot_lt (ticksOf high low + 2 ^ 64 - EPOCH_DIFF)
    refine ⟨m, hrun, hs, ?_, ?_, ?_⟩
    · rw [hu]; rfl
    · rw [hu]; omega
    · rw [hu]; omega
  · obtain ⟨m, hrun, htv⟩ := run_time c64 ⟨low, high⟩ z tz tv0 tz0 hz
    have hs : m.tvObj.tv_sec =
        (((ticksOf high low + 2 ^ 64 - EPOCH_DIFF) / 10000000 : Nat) : Int) := by
      rw [htv]
      show castLong c64 (secQuot (rebase (assemble ⟨low, high⟩))) = _
      rw [hre]
      exact toSigned_of_lt _ _ (by unfold secQuot; omega)
    refine ⟨m, hrun, hs, ?_⟩
    rw [hs]; omega

/-- C14 at the tick count 0 (1601-01-01, both halves 0): the seconds quotient is
1833029933770 and `tv_usec = 955161`; with a 64-bit `long` the stored `tv_sec` is
that quotient, and on the `_WIN32` data model the call returns 0 and stores its
32-bit wrap, -921101622. -/
theorem below_precondition_witness :
    ticksOf 0 0 < EPOCH_DIFF ∧
    (rebase (assemble { dwLowDateTime := 0, dwHighDateTime := 0 }) =
        ticksOf 0 0 + 2 ^ 64 - EPOCH_DIFF ∧
      secQuot (rebase (assemble { dwLowDateTime := 0, dwHighDateTime := 0 })) =
        (ticksOf 0 0 + 2 ^ 64 - EPOCH_DIFF) / 10000000 ∧
      1833029933770 ≤ (ticksOf 0 0 + 2 ^ 64 - EPOCH_DIFF) / 10000000 ∧
      (∃ m, wintimeofday win32
            { GetSystemTimeAsFileTime := clockOf 0 0, GetTimeZoneInformation := none }
            Ptr.obj Ptr.NULL (start ⟨0, 0⟩ ⟨0, 0⟩) = some (0, m) ∧
        m.tvObj.tv_sec = castLong win32 ((ticksOf 0 0 + 2 ^ 64 - EPOCH_DIFF) / 10000000) ∧
        m.tvObj.tv_usec = 955161 ∧
        0 ≤ m.tvObj.tv_usec ∧ m.tvObj.tv_usec < 1000000) ∧
      (∃ m, wintimeofday lp64
            { GetSystemTimeAsFileTime := clockOf 0 0, GetTimeZoneInformation := none }
            Ptr.obj Ptr.NULL (start ⟨0, 0⟩ ⟨0, 0⟩) = some (0, m) ∧
        m.tvObj.tv_sec = 1833029933770 ∧
        1833029933770 ≤ m.tvObj.tv_sec)) ∧
    wintimeofday win32
        { GetSystemTimeAsFileTime := clockOf 0 0, GetTimeZoneInformation := none }
        Ptr.obj Ptr.NULL (start ⟨0, 0⟩ ⟨0, 0⟩) =
      some (0, { tvObj := ⟨-921101622, 955161⟩, tzObj := ⟨0, 0⟩,
                 trace := [Event.callGetSystemTimeAsFileTime,
                           Event.storeTvSec (-921101622), Event.storeTvUsec 955161] }) :=
  ⟨by decide,
   below_precondition win32 lp64 0 0 none Ptr.NULL ⟨0, 0⟩ ⟨0, 0⟩
     (by decide) (by decide) (by decide) (by decide) (by decide) (Or.inl rfl),
   by decide⟩

end Wincompat
